import Mathlib

/-!
# Verification of the GPU liquid-cooling simulation core

Shallow embedding, over exact rationals, of the finite-difference core of the
`gpu-cooling-system` repository (`src/parametros.py`, `src/fluido.py`,
`src/placa.py`, `src/aletas.py`, `src/acoplamiento.py`, `src/solucionador.py`),
together with theorems settling the frozen claims about that code.

Modelling conventions:
* Python float64 arithmetic is modelled by exact rational arithmetic (`ℚ`).
  The constant `np_pi` is the exact rational value of the float64 constant
  `numpy.pi`, so grid quantities such as `dtheta_aleta = np.pi / 19` are exact
  rationals here as they are exact float64 values there.  Likewise
  `np.cos(0.0) = 1.0` and `np.cos(np.pi) = -1.0` are exact float64 identities
  and are used as such in the coupling maps.
* NumPy arrays are modelled as functions out of `ℕ` (or `ℕ → ℕ`), with the
  array extent recorded by the constants `Nx_fluido`, `Nx_placa`, …; only
  indices below the extent are meaningful, exactly as for the arrays.
* The imperative "fill the interior, then overwrite the boundary rows"
  sequences are translated to pointwise definitions whose `if` cascade gives
  each node the final value it holds after the last write of the Python
  function.
* `assert` statements are modelled separately: the update rules themselves are
  pure functions, and the checked variants (suffix `_chk`) return
  `Except String _`, erroring exactly when the corresponding assertion fires.
* The run-time `NameError` of `resolver_sistema` (the read of the undefined
  name `t` in `balance['tiempo'] = t`, solucionador.py line 537) is modelled
  as an `Except.error` at the precise program point where the read happens.
-/

namespace GpuCooling

/-! ## Parametros (src/parametros.py)

All geometry, operating and material constants, exactly as assigned in
`Parametros.__init__` / `Parametros.set_material`.  The two material presets
become an inductive type. -/

inductive Material
  | Al
  | SS
deriving DecidableEq

/-- Tabla I: length of the plate in the flow direction [m]. -/
def L_x : ℚ := 0.03

/-- Tabla I: width / depth in z [m]. -/
def W : ℚ := 0.10

/-- Tabla I: base-plate thickness [m]. -/
def e_base : ℚ := 0.01

/-- Tabla I: hydraulic channel clearance [m]. -/
def e_agua : ℚ := 0.003

/-- Tabla I: dome radius [m] (`params.r`). -/
def r : ℚ := 0.004

/-- Fin center position 1 on the x axis [m]. -/
def x_aleta_1 : ℚ := 0.005

/-- Fin center position 2 [m]. -/
def x_aleta_2 : ℚ := 0.015

/-- Fin center position 3 [m]. -/
def x_aleta_3 : ℚ := 0.025

/-- Tabla II: mean water velocity [m/s]. -/
def u : ℚ := 0.111

/-- Tabla II: water-plate convective coefficient [W m⁻² K⁻¹]. -/
def h_agua : ℚ := 600

/-- Tabla II: air convective coefficient [W m⁻² K⁻¹]. -/
def h_aire : ℚ := 10

/-- Tabla II: ambient air temperature [K]. -/
def T_inf : ℚ := 296.15

/-- Tabla II: initial solid temperature [K]. -/
def T_inicial : ℚ := 296.15

/-- Tabla II: water inlet temperature [K]. -/
def T_f_in : ℚ := 353.15

/-- Tabla III: water density [kg m⁻³]. -/
def rho_agua : ℚ := 980.5

/-- Tabla III: water specific heat [J kg⁻¹ K⁻¹]. -/
def cp_agua : ℚ := 4180

/-- Tablas IV/V: solid thermal conductivity per material. -/
def k_s : Material → ℚ
  | .Al => 167
  | .SS => 16.2

/-- Tablas IV/V: solid density per material. -/
def rho_s : Material → ℚ
  | .Al => 2700
  | .SS => 8000

/-- Tablas IV/V: solid specific heat per material. -/
def cp_s : Material → ℚ
  | .Al => 900
  | .SS => 500

/-- Tablas IV/V: solid thermal diffusivity per material [m²/s]. -/
def alpha_s : Material → ℚ
  | .Al => 6.87e-5
  | .SS => 4.05e-6

/-- Number of fluid nodes. -/
def Nx_fluido : ℕ := 60

/-- Number of plate nodes in x. -/
def Nx_placa : ℕ := 60

/-- Number of plate nodes in y. -/
def Ny_placa : ℕ := 20

/-- Number of radial fin nodes. -/
def Nr_aleta : ℕ := 10

/-- Number of angular fin nodes. -/
def Ntheta_aleta : ℕ := 20

/-- Fluid grid spacing `L_x / (Nx_fluido - 1)` [m]. -/
def dx_fluido : ℚ := L_x / ((Nx_fluido : ℚ) - 1)

/-- Plate grid spacing in x [m]. -/
def dx_placa : ℚ := L_x / ((Nx_placa : ℚ) - 1)

/-- Plate grid spacing in y [m]. -/
def dy_placa : ℚ := e_base / ((Ny_placa : ℚ) - 1)

/-- Radial fin grid spacing `r / (Nr_aleta - 1)` [m]. -/
def dr_aleta : ℚ := r / ((Nr_aleta : ℚ) - 1)

/-- The exact rational value of the float64 constant `numpy.pi`
(`884279719003555 · 2⁻⁴⁸`), used wherever the source uses `np.pi`. -/
def np_pi : ℚ := 884279719003555 / 281474976710656

/-- Angular fin grid spacing `np.pi / (Ntheta_aleta - 1)` [rad]. -/
def dtheta_aleta : ℚ := np_pi / ((Ntheta_aleta : ℚ) - 1)

/-- The plate/fluid shared time step, computed in `Parametros.__init__`:
80 % of the minimum of the plate Fourier bound and the fluid CFL bound. -/
def dt (mat : Material) : ℚ :=
  let Fo_total_inv := 1 / dx_placa ^ 2 + 1 / dy_placa ^ 2
  let dt_max_fourier := 0.5 / (alpha_s mat * Fo_total_inv)
  let dt_max_cfl := dx_fluido / u
  0.8 * min dt_max_fourier dt_max_cfl

/-- Fluid-solid thermal coupling parameter
`γ = h_agua/(ρ_agua·cp_agua·e_agua)` [s⁻¹]. -/
def gamma : ℚ := h_agua / (rho_agua * cp_agua * e_agua)

/-- Courant number of the fluid scheme at the configured step (`Parametros.CFL`). -/
def CFL (mat : Material) : ℚ := u * dt mat / dx_fluido

/-- Plate Fourier number in x at the configured step (`Parametros.Fo_x`). -/
def Fo_x (mat : Material) : ℚ := alpha_s mat * dt mat / dx_placa ^ 2

/-- Plate Fourier number in y at the configured step (`Parametros.Fo_y`). -/
def Fo_y (mat : Material) : ℚ := alpha_s mat * dt mat / dy_placa ^ 2

/-! ## Mallas (src/mallas.py) — the uniform coordinate axes. -/

/-- Plate x coordinate of node `i`: `np.linspace(0, L_x, Nx)[i] = i·Δx`. -/
def x_placa (i : ℕ) : ℚ := (i : ℚ) * dx_placa

/-- Plate y coordinate of node `j`: `np.linspace(0, e_base, Ny)[j] = j·Δy`. -/
def y_placa (j : ℕ) : ℚ := (j : ℚ) * dy_placa

/-- Radial coordinate of fin node `j`: `np.linspace(0, R, Nr)[j] = j·Δr`. -/
def r_aleta (j : ℕ) : ℚ := (j : ℚ) * dr_aleta

/-! ## Fluido (src/fluido.py) -/

/-- Initial fluid field: uniform `T_inicial` with the Dirichlet inlet
`T_f_in` at node 0 (`inicializar_fluido`). -/
def inicializar_fluido : ℕ → ℚ :=
  fun i => if i = 0 then T_f_in else T_inicial

/-- Shallow embedding of `actualizar_fluido` (upwind + explicit Euler).
The slice assignment for the interior nodes, the Dirichlet inlet write at
index 0 and the zero-gradient write `new[-1] = new[-2]` are combined into one
pointwise definition giving each node its final value.  The plate-surface
field is already on the fluid grid (`Nx_fluido = Nx_placa = 60`, so the
interpolation branch of the source is the identity).  Meaningful indices are
`i < Nx_fluido`. -/
def actualizar_fluido (T_fluido_old T_s : ℕ → ℚ) (dtv : ℚ) : ℕ → ℚ :=
  let CFLv := u * dtv / dx_fluido
  let interior := fun i =>
    T_fluido_old i - CFLv * (T_fluido_old i - T_fluido_old (i - 1))
      - gamma * dtv * (T_fluido_old i - T_s i)
  fun i =>
    if i = 0 then T_f_in
    else if i = Nx_fluido - 1 then interior (Nx_fluido - 2)
    else interior i

/-! ## Placa (src/placa.py) -/

/-- Initial plate field: uniform `T_inicial` (`inicializar_placa`). -/
def inicializar_placa : ℕ → ℕ → ℚ :=
  fun _ _ => T_inicial

/-- Shallow embedding of `actualizar_placa` (FTCS 2-D + Robin faces).
Region map of the final array: rows `1 ≤ i ≤ Nx-2` get the water-side Robin
update at `j = 0` (Ecuación 12), the air-side Robin update at `j = Ny-1`
(Ecuación 13) and plain FTCS in between (Ecuación 11); afterwards the source
copies row `1` into row `0` and row `Nx-2` into row `Nx-1` (insulated ends),
which the outer `if` reproduces.  The fluid field is already on the plate
grid (`Nx_fluido = Nx_placa`, identity branch of `_interpolar_fluido_a_placa`).
Meaningful indices are `i < Nx_placa`, `j < Ny_placa`. -/
def actualizar_placa (T_placa_old : ℕ → ℕ → ℚ) (T_fluido : ℕ → ℚ)
    (mat : Material) (dtv : ℚ) : ℕ → ℕ → ℚ :=
  let Fo_xv := alpha_s mat * dtv / dx_placa ^ 2
  let Fo_yv := alpha_s mat * dtv / dy_placa ^ 2
  let coef_agua := h_agua * dy_placa / k_s mat
  let coef_aire := h_aire * dy_placa / k_s mat
  let interior := fun i j =>
    T_placa_old i j
      + Fo_xv * (T_placa_old (i+1) j - 2 * T_placa_old i j + T_placa_old (i-1) j)
      + Fo_yv * (T_placa_old i (j+1) - 2 * T_placa_old i j + T_placa_old i (j-1))
  let robin_agua := fun i =>
    T_placa_old i 0
      + Fo_xv * (T_placa_old (i+1) 0 - 2 * T_placa_old i 0 + T_placa_old (i-1) 0)
      + 2 * Fo_yv * ((T_placa_old i 1 - T_placa_old i 0)
          - coef_agua * (T_placa_old i 0 - T_fluido i))
  let robin_aire := fun i =>
    T_placa_old i (Ny_placa - 1)
      + Fo_xv * (T_placa_old (i+1) (Ny_placa - 1) - 2 * T_placa_old i (Ny_placa - 1)
          + T_placa_old (i-1) (Ny_placa - 1))
      + 2 * Fo_yv * ((T_placa_old i (Ny_placa - 2) - T_placa_old i (Ny_placa - 1))
          - coef_aire * (T_placa_old i (Ny_placa - 1) - T_inf))
  let fila := fun i j =>
    if j = 0 then robin_agua i
    else if j = Ny_placa - 1 then robin_aire i
    else interior i j
  fun i j =>
    if i = 0 then fila 1 j
    else if i = Nx_placa - 1 then fila (Nx_placa - 2) j
    else fila i j

/-! ## Aletas (src/aletas.py)

The three fins share one grid (`generar_mallas_aletas` builds the same `r`,
`theta`, `dr`, `dtheta` for each `k`), so the embedded update does not take a
fin index.  A fin field is indexed `T m j` with `m` the angular index
(`Ntheta_aleta` rows) and `j` the radial index (`Nr_aleta` columns). -/

/-- Initial fin field: uniform `T_inicial` (`inicializar_aleta`). -/
def inicializar_aleta : ℕ → ℕ → ℚ :=
  fun _ _ => T_inicial

/-- Shallow embedding of `actualizar_aleta` and its helpers
(`_actualizar_centro_aleta`, `_actualizar_interior_aleta`,
`_aplicar_bc_superficie_aleta`, `_aplicar_bc_theta_aleta`).
Region map of the final array: rows `1 ≤ m ≤ Ntheta-2` get the L'Hôpital
center update at `j = 0` (Ecuación 16), the Robin surface update at
`j = Nr-1` (Ecuación 14) and the cylindrical FTCS update in between
(Ecuación 15); the source then copies the finished row `1` into row `0` and
the finished row `Ntheta-2` into row `Ntheta-1` (`_aplicar_bc_theta_aleta`),
reproduced by the outer `if`.  Meaningful indices are `m < Ntheta_aleta`,
`j < Nr_aleta`. -/
def actualizar_aleta (T_old : ℕ → ℕ → ℚ) (mat : Material) (dtv : ℚ) : ℕ → ℕ → ℚ :=
  let Fo_r := alpha_s mat * dtv / dr_aleta ^ 2
  let Fo_theta := alpha_s mat * dtv
  let beta_aire := h_aire * dr_aleta / k_s mat
  let centro := fun m => T_old m 0 + 2 * Fo_r * (T_old m 1 - T_old m 0)
  let interior := fun m j =>
    T_old m j
      + Fo_r * ((T_old m (j+1) - 2 * T_old m j + T_old m (j-1))
          + (dr_aleta / r_aleta j) * (T_old m (j+1) - T_old m (j-1)))
      + Fo_theta * (1 / (r_aleta j * dtheta_aleta) ^ 2)
          * (T_old (m+1) j - 2 * T_old m j + T_old (m-1) j)
  let superficie := fun m =>
    T_old m (Nr_aleta - 1)
      + 2 * Fo_r * ((T_old m (Nr_aleta - 2) - T_old m (Nr_aleta - 1))
          - beta_aire * (T_old m (Nr_aleta - 1) - T_inf))
      + Fo_theta * (1 / (r * dtheta_aleta) ^ 2)
          * (T_old (m+1) (Nr_aleta - 1) - 2 * T_old m (Nr_aleta - 1)
              + T_old (m-1) (Nr_aleta - 1))
  let fila := fun m j =>
    if j = 0 then centro m
    else if j = Nr_aleta - 1 then superficie m
    else interior m j
  fun m j =>
    if m = 0 then fila 1 j
    else if m = Ntheta_aleta - 1 then fila (Ntheta_aleta - 2) j
    else fila m j

/-- The fin field used as concrete input for the C2 counterexample:
radially linear, angularly uniform, inside the physical range (296.15 K at the
center up to 305.15 K at the surface). -/
def T_c2 : ℕ → ℕ → ℚ := fun _ j => T_inicial + j

/-! ## Acoplamiento (src/acoplamiento.py) -/

/-- `extraer_temperatura_superficie_placa`: the water-facing plate row `j = 0`. -/
def extraer_temperatura_superficie_placa (T_placa : ℕ → ℕ → ℚ) : ℕ → ℚ :=
  fun i => T_placa i 0

/-- `interpolar_temperatura_para_fluido`: the fluid and plate grids coincide
(`Nx_fluido = Nx_placa` and identical `linspace` axes), so the source takes
its copy branch; the embedding is the identity. -/
def interpolar_temperatura_para_fluido (T_superficie_placa : ℕ → ℚ) : ℕ → ℚ :=
  T_superficie_placa

/-- Cell index used by bilinear interpolation on a uniform axis with `n`
nodes and spacing `dx`: the node interval containing the in-bounds query,
clamped to the last interior cell (queries at the right end use the last
cell with unit local coordinate, as `RegularGridInterpolator` does). -/
def indice_celda (x dx : ℚ) (n : ℕ) : ℕ :=
  min (n - 2) (Int.toNat ⌊x / dx⌋)

/-- `interpolar_temperatura_placa_2d`: bilinear (scipy
`RegularGridInterpolator`, `method='linear'`) interpolation of the plate
field at an in-bounds point `(xq, yq)` of the uniform plate grid. -/
def interpolar_temperatura_placa_2d (T_placa : ℕ → ℕ → ℚ) (xq yq : ℚ) : ℚ :=
  let i0 := indice_celda xq dx_placa Nx_placa
  let j0 := indice_celda yq dy_placa Ny_placa
  let tx := (xq - x_placa i0) / dx_placa
  let ty := (yq - y_placa j0) / dy_placa
  (1 - tx) * (1 - ty) * T_placa i0 j0
    + tx * (1 - ty) * T_placa (i0 + 1) j0
    + (1 - tx) * ty * T_placa i0 (j0 + 1)
    + tx * ty * T_placa (i0 + 1) (j0 + 1)

/-- Fin center positions `x_aletas = [x_aleta_1, x_aleta_2, x_aleta_3]`. -/
def x_centro_aleta : ℕ → ℚ
  | 0 => x_aleta_1
  | 1 => x_aleta_2
  | _ => x_aleta_3

/-- `aplicar_acoplamiento_placa_aletas`: for each fin `k`, overwrite the two
flat angular edges with the plate temperature bilinearly interpolated at the
mapped Cartesian points (`mapear_coordenadas_placa_a_aleta`:
`x = x_k + r·cos θ`, `y = e_base`, and float64 `cos 0 = 1`, `cos np.pi = -1`);
all other nodes are the copied input values.  The field argument and result
are indexed `k m j`. -/
def aplicar_acoplamiento_placa_aletas (T_placa : ℕ → ℕ → ℚ)
    (T_aletas : ℕ → ℕ → ℕ → ℚ) : ℕ → ℕ → ℕ → ℚ :=
  fun k m j =>
    if m = 0 then
      interpolar_temperatura_placa_2d T_placa (x_centro_aleta k + r_aleta j) e_base
    else if m = Ntheta_aleta - 1 then
      interpolar_temperatura_placa_2d T_placa (x_centro_aleta k - r_aleta j) e_base
    else T_aletas k m j

/-! ## Solucionador (src/solucionador.py) -/

/-- `calcular_dt_aletas`: the stable fin step, 80 % of the cylindrical
Fourier bound evaluated at the smallest nonzero radius `r_min = Δr`. -/
def calcular_dt_aletas (mat : Material) : ℚ :=
  let r_min := dr_aleta
  let factor_estabilidad :=
    alpha_s mat * (1 / dr_aleta ^ 2 + 1 / (r_min * dtheta_aleta) ^ 2)
  let dt_max := 0.5 / factor_estabilidad
  0.8 * dt_max

/-- `n_subpasos_aletas = int(np.ceil(dt_placa / dt_aletas))`. -/
def n_subpasos_aletas (mat : Material) : ℕ :=
  ⌈dt mat / calcular_dt_aletas mat⌉₊

/-- `dt_aletas_ajustado = dt_placa / n_subpasos_aletas`. -/
def dt_aletas_ajustado (mat : Material) : ℚ :=
  dt mat / (n_subpasos_aletas mat : ℚ)

/-- One fin sub-step of the integrated loop (solucionador.py, step 4.3):
first `aplicar_acoplamiento_placa_aletas`, then `actualizar_aleta` on each
of the three fins with the adjusted fin step. -/
def subpaso_aletas (mat : Material) (T_placa : ℕ → ℕ → ℚ)
    (T_aletas : ℕ → ℕ → ℕ → ℚ) : ℕ → ℕ → ℕ → ℚ :=
  let T_ac := aplicar_acoplamiento_placa_aletas T_placa T_aletas
  fun k => actualizar_aleta (T_ac k) mat (dt_aletas_ajustado mat)

/-- The `n`-fold iteration of `subpaso_aletas` (the inner
`for _ in range(n_subpasos_aletas)` loop). -/
def subpasos_aletas (mat : Material) (T_placa : ℕ → ℕ → ℚ) :
    ℕ → (ℕ → ℕ → ℕ → ℚ) → (ℕ → ℕ → ℕ → ℚ)
  | 0, T => T
  | n + 1, T => subpasos_aletas mat T_placa n (subpaso_aletas mat T_placa T)

/-- The mutable aggregate of `resolver_sistema`: the three temperature
fields (fluid, plate, the three fins indexed `k m j`). -/
structure Campos where
  fluido : ℕ → ℚ
  placa : ℕ → ℕ → ℚ
  aletas : ℕ → ℕ → ℕ → ℚ

/-- The fields at `t = 0` (PASO 1 of `resolver_sistema`). -/
def campos_iniciales : Campos :=
  ⟨inicializar_fluido, inicializar_placa, fun _ => inicializar_aleta⟩

/-- One outer iteration of `resolver_sistema` (steps 4.1–4.3): plate→fluid
coupling and fluid update, plate update with the new fluid field, then
`n_subpasos_aletas` fin sub-steps against the new plate field. -/
def paso_exterior (mat : Material) (c : Campos) : Campos :=
  let T_sup_placa := extraer_temperatura_superficie_placa c.placa
  let T_sup_interpolada := interpolar_temperatura_para_fluido T_sup_placa
  let T_fluido := actualizar_fluido c.fluido T_sup_interpolada (dt mat)
  let T_placa := actualizar_placa c.placa T_fluido mat (dt mat)
  let T_aletas := subpasos_aletas mat T_placa (n_subpasos_aletas mat) c.aletas
  ⟨T_fluido, T_placa, T_aletas⟩

/-- Maximum of a list of rationals, `np.max` style (0 for the empty list,
which never arises: every array reduced here is nonempty, and all reduced
values are absolute values, hence nonnegative). -/
def maxLista : List ℚ → ℚ
  | [] => 0
  | x :: xs => xs.foldl max x

/-- Minimum of a list of rationals, `np.min` style (0 for the empty list,
which never arises here). -/
def minLista : List ℚ → ℚ
  | [] => 0
  | x :: xs => xs.foldl min x

/-- The list of instantaneous rates `|ΔT|/Δt` over every node of every
domain, in the order fluid, plate, fins (`verificar_convergencia`). -/
def tasas (T_old T_new : Campos) (dtv : ℚ) : List ℚ :=
  ((List.range Nx_fluido).map fun i => |T_new.fluido i - T_old.fluido i| / dtv)
    ++ ((List.range Nx_placa).flatMap fun i =>
          (List.range Ny_placa).map fun j => |T_new.placa i j - T_old.placa i j| / dtv)
    ++ ((List.range 3).flatMap fun k =>
          (List.range Ntheta_aleta).flatMap fun m =>
            (List.range Nr_aleta).map fun j =>
              |T_new.aletas k m j - T_old.aletas k m j| / dtv)

/-- `verificar_convergencia`: the pair `(converged, max_rate)` where
`max_rate` is the global maximum of `|ΔT|/Δt` over all nodes of all domains
and `converged` is the strict comparison `max_rate < ε`. -/
def verificar_convergencia (T_old T_new : Campos) (dtv epsilon : ℚ) : Bool × ℚ :=
  let max_rate := maxLista (tasas T_old T_new dtv)
  (decide (max_rate < epsilon), max_rate)

/-- `calcular_balance_energetico` result record. -/
structure BalanceEnergetico where
  Q_in : ℚ
  Q_out : ℚ
  dE_dt : ℚ
  error_relativo : ℚ

/-- Shallow embedding of `calcular_balance_energetico`: inbound coolant
enthalpy flux, outbound convective losses from the plate air face and the
three fin surfaces, and the volume-integrated rate of internal-energy
change, with the relative residual. -/
def calcular_balance_energetico (mat : Material) (nuevo viejo : Campos)
    (dtv : ℚ) : BalanceEnergetico :=
  let T_out := nuevo.fluido (Nx_fluido - 1)
  let m_dot := rho_agua * u * W * e_agua
  let Q_in := m_dot * cp_agua * (T_f_in - T_out)
  let T_sup_placa :=
    ((List.range Nx_placa).map fun i => nuevo.placa i (Ny_placa - 1)).sum
      / (Nx_placa : ℚ)
  let A_placa_aire := L_x * W
  let Q_out_placa := h_aire * A_placa_aire * (T_sup_placa - T_inf)
  let A_aleta := np_pi * r * W
  let Q_out_aletas :=
    ((List.range 3).map fun k =>
      let T_sup_aleta :=
        ((List.range Ntheta_aleta).map fun m => nuevo.aletas k m (Nr_aleta - 1)).sum
          / (Ntheta_aleta : ℚ)
      h_aire * A_aleta * (T_sup_aleta - T_inf)).sum
  let Q_out := Q_out_placa + Q_out_aletas
  let V_fluido_nodo := dx_fluido * (W * e_agua)
  let dE_fluido :=
    ((List.range Nx_fluido).map fun i =>
      rho_agua * cp_agua * V_fluido_nodo * (nuevo.fluido i - viejo.fluido i)).sum
  let V_placa_nodo := dx_placa * dy_placa * W
  let dE_placa :=
    ((List.range Nx_placa).flatMap fun i =>
      (List.range Ny_placa).map fun j =>
        rho_s mat * cp_s mat * V_placa_nodo * (nuevo.placa i j - viejo.placa i j)).sum
  let dE_aletas :=
    ((List.range 3).flatMap fun k =>
      (List.range Nr_aleta).map fun j =>
        let r_j := if j = 0 then dr_aleta / 2 else r_aleta j
        let dV_nodo := r_j * dr_aleta * dtheta_aleta * W
        ((List.range Ntheta_aleta).map fun m =>
          rho_s mat * cp_s mat * dV_nodo * (nuevo.aletas k m j - viejo.aletas k m j)).sum).sum
  let dE_dt := (dE_fluido + dE_placa + dE_aletas) / dtv
  let error_absoluto := |Q_in - Q_out - dE_dt|
  let error_relativo := if 1e-6 < |Q_in| then error_absoluto / |Q_in| else 0
  ⟨Q_in, Q_out, dE_dt, error_relativo⟩

/-- Result of the temporal loop: final fields, whether steady state was
reached, and the number of outer steps actually executed. -/
structure Resultado where
  campos : Campos
  alcanzada : Bool
  pasos : ℕ

/-- The outer temporal loop of `resolver_sistema` (PASO 4).  `fuel` is the
number of remaining iterations (`n_pasos_max - n`), `n` the current step
index.  Each iteration advances the three fields, checks convergence, and —
when `calcular_balance ∧ (n % guardar_cada == 0 ∨ converged)` — computes the
energy balance and then raises `NameError` at `balance['tiempo'] = t`
(solucionador.py line 537: the name `t` is not defined in
`resolver_sistema`), which aborts the run. -/
def bucle_temporal (mat : Material) (calcular_balance : Bool)
    (guardar_cada : ℕ) (epsilon : ℚ) :
    ℕ → ℕ → Campos → Except String Resultado
  | 0, n, c => .ok ⟨c, false, n⟩
  | fuel + 1, n, c =>
    let c' := paso_exterior mat c
    let conv := (verificar_convergencia c c' (dt mat) epsilon).1
    if calcular_balance && (n % guardar_cada == 0 || conv) then
      let _ := calcular_balance_energetico mat c' c (dt mat)
      .error "NameError: name t is not defined"
    else if conv then .ok ⟨c', true, n + 1⟩
    else bucle_temporal mat calcular_balance guardar_cada epsilon fuel (n + 1) c'

/-- `n_pasos_max = int(t_max / dt_placa)` (Python `int()` truncates; the
ratio is positive). -/
def n_pasos_max (mat : Material) (t_max : ℚ) : ℕ :=
  Int.toNat ⌊t_max / dt mat⌋

/-- `resolver_sistema` (temperature-trajectory and control-flow part):
initialize the fields and run the outer loop for at most `n_pasos_max`
iterations. -/
def resolver_sistema (mat : Material) (t_max epsilon : ℚ)
    (guardar_cada : ℕ) (calcular_balance : Bool) : Except String Resultado :=
  bucle_temporal mat calcular_balance guardar_cada epsilon
    (n_pasos_max mat t_max) 0 campos_iniciales

/-- Whether the convergence flag of `verificar_convergencia` fires at outer
step `s` of the trajectory started at `c` (a statement-level abbreviation
over the embedded loop body). -/
def converge_en (mat : Material) (epsilon : ℚ) (c : Campos) (s : ℕ) : Bool :=
  (verificar_convergencia ((paso_exterior mat)^[s] c) ((paso_exterior mat)^[s + 1] c)
    (dt mat) epsilon).1

/-! ## Checked update variants: the `assert` gates of each solver. -/

/-- `actualizar_fluido` together with its assertion gates: the CFL bound is
checked before the update, and the computed field's minimum and maximum are
required to lie strictly inside (200 K, 400 K) before it is returned
(fluido.py lines 171–218).  Non-finite values cannot arise over `ℚ`. -/
def actualizar_fluido_chk (T_fluido_old T_s : ℕ → ℚ) (dtv : ℚ) :
    Except String (ℕ → ℚ) :=
  let CFLv := u * dtv / dx_fluido
  if ¬ (CFLv < 1) then .error "INESTABILIDAD: CFL >= 1.0"
  else
    let T_new := actualizar_fluido T_fluido_old T_s dtv
    let vals := (List.range Nx_fluido).map T_new
    let T_min := minLista vals
    let T_max := maxLista vals
    if 200 < T_min ∧ T_min < 400 ∧ 200 < T_max ∧ T_max < 400 then .ok T_new
    else .error "Temperatura fuera de rango fisico"

/-- `actualizar_placa` together with its assertion gates: the Fourier bound
`Fo_x + Fo_y < 0.5` is checked before the update, and the computed field's
minimum and maximum must lie strictly inside (200 K, 400 K)
(placa.py lines 184–270). -/
def actualizar_placa_chk (T_placa_old : ℕ → ℕ → ℚ) (T_fluido : ℕ → ℚ)
    (mat : Material) (dtv : ℚ) : Except String (ℕ → ℕ → ℚ) :=
  let Fo_total := alpha_s mat * dtv / dx_placa ^ 2 + alpha_s mat * dtv / dy_placa ^ 2
  if ¬ (Fo_total < 0.5) then .error "INESTABILIDAD: Fo_x + Fo_y >= 0.5"
  else
    let T_new := actualizar_placa T_placa_old T_fluido mat dtv
    let vals := (List.range Nx_placa).flatMap fun i =>
      (List.range Ny_placa).map fun j => T_new i j
    let T_min := minLista vals
    let T_max := maxLista vals
    if 200 < T_min ∧ T_min < 400 ∧ 200 < T_max ∧ T_max < 400 then .ok T_new
    else .error "Temperatura fuera de rango fisico"

/-- `actualizar_aleta` together with its assertion gates (aletas.py lines
440–496): the input field must lie elementwise in [200 K, 500 K], the step
must be positive, the worst-case cylindrical Fourier sum (at `r_min = Δr`)
must be below 0.5, the output must lie elementwise in [200 K, 500 K], and
the largest per-step change must stay below 50 K. -/
def actualizar_aleta_chk (T_old : ℕ → ℕ → ℚ) (mat : Material) (dtv : ℚ) :
    Except String (ℕ → ℕ → ℚ) :=
  if ¬ (∀ m ∈ List.range Ntheta_aleta, ∀ j ∈ List.range Nr_aleta,
        200 ≤ T_old m j ∧ T_old m j ≤ 500) then
    .error "Temperaturas de entrada fuera de rango"
  else if ¬ (0 < dtv) then .error "dt debe ser positivo"
  else
    let Fo_r := alpha_s mat * dtv / dr_aleta ^ 2
    let Fo_theta_efectivo_max := alpha_s mat * dtv / (dr_aleta * dtheta_aleta) ^ 2
    if ¬ (Fo_r + Fo_theta_efectivo_max < 0.5) then
      .error "Criterio de estabilidad violado"
    else
      let T_new := actualizar_aleta T_old mat dtv
      if ¬ (∀ m ∈ List.range Ntheta_aleta, ∀ j ∈ List.range Nr_aleta,
            200 ≤ T_new m j ∧ T_new m j ≤ 500) then
        .error "Temperaturas de salida fuera de rango"
      else if ¬ (maxLista ((List.range Ntheta_aleta).flatMap fun m =>
            (List.range Nr_aleta).map fun j => |T_new m j - T_old m j|) < 50) then
        .error "Cambio de temperatura excesivo en un paso"
      else .ok T_new

/-! ## Helper lemmas on `maxLista` / `minLista` -/

/-- The seed of a `max` fold bounds the fold from below. -/
theorem le_foldl_max (l : List ℚ) (b : ℚ) : b ≤ l.foldl max b := by
  induction l generalizing b with
  | nil => exact le_refl b
  | cons y ys ih => exact le_trans (le_max_left b y) (ih (max b y))

/-- Every member of a list bounds its `max` fold from below. -/
theorem mem_le_foldl_max (l : List ℚ) (b x : ℚ) (hx : x ∈ l) :
    x ≤ l.foldl max b := by
  induction l generalizing b with
  | nil => cases hx
  | cons y ys ih =>
    rcases List.mem_cons.mp hx with h | h
    · subst h
      exact le_trans (le_max_right b x) (le_foldl_max ys (max b x))
    · exact ih (max b y) h

/-- `maxLista` dominates every member. -/
theorem le_maxLista (l : List ℚ) (x : ℚ) (hx : x ∈ l) : x ≤ maxLista l := by
  cases l with
  | nil => cases hx
  | cons y ys =>
    rcases List.mem_cons.mp hx with h | h
    · subst h
      exact le_foldl_max ys x
    · exact mem_le_foldl_max ys y x h

/-- A `max` fold is either its seed or a member of the list. -/
theorem foldl_max_mem (l : List ℚ) (b : ℚ) : l.foldl max b ∈ b :: l := by
  induction l generalizing b with
  | nil => simp
  | cons y ys ih =>
    have h := ih (max b y)
    simp only [List.foldl_cons]
    rcases List.mem_cons.mp h with h1 | h1
    · rcases max_choice b y with hb | hy
      · exact List.mem_cons.mpr (Or.inl (h1.trans hb))
      · exact List.mem_cons.mpr (Or.inr (List.mem_cons.mpr (Or.inl (h1.trans hy))))
    · exact List.mem_cons.mpr (Or.inr (List.mem_cons.mpr (Or.inr h1)))

/-- On a nonempty list, `maxLista` is attained by a member. -/
theorem maxLista_mem (l : List ℚ) (h : l ≠ []) : maxLista l ∈ l := by
  cases l with
  | nil => exact absurd rfl h
  | cons y ys =>
    have := foldl_max_mem ys y
    simpa [maxLista] using this

/-- The seed of a `min` fold bounds the fold from above. -/
theorem foldl_min_le (l : List ℚ) (b : ℚ) : l.foldl min b ≤ b := by
  induction l generalizing b with
  | nil => exact le_refl b
  | cons y ys ih => exact le_trans (ih (min b y)) (min_le_left b y)

/-- A `min` fold is below every member of the list. -/
theorem foldl_min_le_mem (l : List ℚ) (b x : ℚ) (hx : x ∈ l) :
    l.foldl min b ≤ x := by
  induction l generalizing b with
  | nil => cases hx
  | cons y ys ih =>
    rcases List.mem_cons.mp hx with h | h
    · subst h
      exact le_trans (foldl_min_le ys (min b x)) (min_le_right b x)
    · exact ih (min b y) h

/-- `minLista` is below every member. -/
theorem minLista_le (l : List ℚ) (x : ℚ) (hx : x ∈ l) : minLista l ≤ x := by
  cases l with
  | nil => cases hx
  | cons y ys =>
    rcases List.mem_cons.mp hx with h | h
    · subst h
      exact foldl_min_le ys x
    · exact foldl_min_le_mem ys y x h

/-- A `min` fold is either its seed or a member of the list. -/
theorem foldl_min_mem (l : List ℚ) (b : ℚ) : l.foldl min b ∈ b :: l := by
  induction l generalizing b with
  | nil => simp
  | cons y ys ih =>
    have h := ih (min b y)
    simp only [List.foldl_cons]
    rcases List.mem_cons.mp h with h1 | h1
    · rcases min_choice b y with hb | hy
      · exact List.mem_cons.mpr (Or.inl (h1.trans hb))
      · exact List.mem_cons.mpr (Or.inr (List.mem_cons.mpr (Or.inl (h1.trans hy))))
    · exact List.mem_cons.mpr (Or.inr (List.mem_cons.mpr (Or.inr h1)))

/-- On a nonempty list, `minLista` is attained by a member. -/
theorem minLista_mem (l : List ℚ) (h : l ≠ []) : minLista l ∈ l := by
  cases l with
  | nil => exact absurd rfl h
  | cons y ys => simpa [minLista] using foldl_min_mem ys y

/-- A strict lower bound on every member bounds `minLista` (nonempty list). -/
theorem lt_minLista (l : List ℚ) (b : ℚ) (h : l ≠ [])
    (hall : ∀ x ∈ l, b < x) : b < minLista l :=
  hall _ (minLista_mem l h)

/-- A strict upper bound on every member bounds `maxLista` (nonempty list). -/
theorem maxLista_lt (l : List ℚ) (b : ℚ) (h : l ≠ [])
    (hall : ∀ x ∈ l, x < b) : maxLista l < b :=
  hall _ (maxLista_mem l h)

/-! ## Helper lemmas on the solvers and the loop -/

/-- A uniform plate field at `T_inf`, stepped against a fluid at `T_inf`, is
left unchanged by `actualizar_placa` (any material, any step size). -/
theorem actualizar_placa_uniforme (mat : Material) (dtv : ℚ) :
    actualizar_placa (fun _ _ => T_inf) (fun _ => T_inf) mat dtv
      = fun _ _ => T_inf := by
  funext i j
  simp only [actualizar_placa]
  split_ifs <;> ring

/-- A uniform fin field at `T_inf` is left unchanged by `actualizar_aleta`
(any material, any step size). -/
theorem actualizar_aleta_uniforme (mat : Material) (dtv : ℚ) :
    actualizar_aleta (fun _ _ => T_inf) mat dtv = fun _ _ => T_inf := by
  funext m j
  simp only [actualizar_aleta]
  split_ifs <;> ring

/-- One fluid step from uniform fields: the inlet node becomes `T_f_in`,
every other node keeps the uniform value. -/
theorem actualizar_fluido_uniforme (c dtv : ℚ) (i : ℕ) :
    actualizar_fluido (fun _ => c) (fun _ => c) dtv i
      = if i = 0 then T_f_in else c := by
  simp only [actualizar_fluido]
  split_ifs <;> ring

/-- The rate list is never empty (the fluid block alone has
`Nx_fluido = 60` entries). -/
theorem tasas_ne_nil (T_old T_new : Campos) (dtv : ℚ) :
    tasas T_old T_new dtv ≠ [] := by
  intro h
  have h1 := congrArg List.length h
  simp only [tasas, List.length_append, List.length_map, List.length_range,
    List.length_nil, Nx_fluido] at h1
  omega

/-- Each fluid-node rate is listed in `tasas`. -/
theorem tasa_fluido_mem (T_old T_new : Campos) (dtv : ℚ) (i : ℕ)
    (hi : i < Nx_fluido) :
    |T_new.fluido i - T_old.fluido i| / dtv ∈ tasas T_old T_new dtv := by
  simp only [tasas, List.mem_append, List.mem_map, List.mem_flatMap,
    List.mem_range]
  exact Or.inl (Or.inl ⟨i, hi, rfl⟩)

/-- Each plate-node rate is listed in `tasas`. -/
theorem tasa_placa_mem (T_old T_new : Campos) (dtv : ℚ) (i j : ℕ)
    (hi : i < Nx_placa) (hj : j < Ny_placa) :
    |T_new.placa i j - T_old.placa i j| / dtv ∈ tasas T_old T_new dtv := by
  simp only [tasas, List.mem_append, List.mem_map, List.mem_flatMap,
    List.mem_range]
  exact Or.inl (Or.inr ⟨i, hi, j, hj, rfl⟩)

/-- Each fin-node rate is listed in `tasas`. -/
theorem tasa_aleta_mem (T_old T_new : Campos) (dtv : ℚ) (k m j : ℕ)
    (hk : k < 3) (hm : m < Ntheta_aleta) (hj : j < Nr_aleta) :
    |T_new.aletas k m j - T_old.aletas k m j| / dtv ∈ tasas T_old T_new dtv := by
  simp only [tasas, List.mem_append, List.mem_map, List.mem_flatMap,
    List.mem_range]
  exact Or.inr ⟨k, hk, m, hm, j, hj, rfl⟩

/-- With the energy balance disabled the temporal loop can never abort: the
balance branch is its only error exit. -/
theorem bucle_temporal_sin_error (mat : Material) (gc : ℕ) (eps : ℚ) :
    ∀ (fuel n : ℕ) (c : Campos),
      (bucle_temporal mat false gc eps fuel n c).isOk = true := by
  intro fuel
  induction fuel with
  | zero => intro n c; rfl
  | succ f ih =>
    intro n c
    simp only [bucle_temporal, Bool.false_and, Bool.false_eq_true, if_false]
    split
    · rfl
    · exact ih (n + 1) _

/-- If the convergence flag stays off for `fuel` steps, the loop (balance
disabled) runs all of them and reports no convergence. -/
theorem bucle_temporal_timeout (mat : Material) (gc : ℕ) (eps : ℚ) :
    ∀ (fuel n : ℕ) (c : Campos),
      (∀ s, s < fuel → converge_en mat eps c s = false) →
      bucle_temporal mat false gc eps fuel n c
        = .ok ⟨(paso_exterior mat)^[fuel] c, false, n + fuel⟩ := by
  intro fuel
  induction fuel with
  | zero =>
    intro n c _
    simp [bucle_temporal]
  | succ f ih =>
    intro n c hconv
    have h0 : (verificar_convergencia c (paso_exterior mat c) (dt mat) eps).1 = false := by
      simpa [converge_en] using hconv 0 (Nat.succ_pos f)
    simp only [bucle_temporal, Bool.false_and, Bool.false_eq_true, if_false, h0]
    rw [ih (n + 1) (paso_exterior mat c) (fun s hs => by
      simpa [converge_en, Function.iterate_succ_apply] using hconv (s + 1) (by omega))]
    have hidx : n + 1 + f = n + (f + 1) := by omega
    rw [hidx, Function.iterate_succ_apply]

/-- If the convergence flag first fires at step `s0 < fuel`, the loop
(balance disabled) stops there and reports convergence. -/
theorem bucle_temporal_converge (mat : Material) (gc : ℕ) (eps : ℚ) :
    ∀ (s0 fuel n : ℕ) (c : Campos), s0 < fuel →
      (∀ s, s < s0 → converge_en mat eps c s = false) →
      converge_en mat eps c s0 = true →
      bucle_temporal mat false gc eps fuel n c
        = .ok ⟨(paso_exterior mat)^[s0 + 1] c, true, n + s0 + 1⟩ := by
  intro s0
  induction s0 with
  | zero =>
    intro fuel n c hf _ hc
    obtain ⟨f, rfl⟩ : ∃ f, fuel = f + 1 := ⟨fuel - 1, by omega⟩
    have h0 : (verificar_convergencia c (paso_exterior mat c) (dt mat) eps).1 = true := by
      simpa [converge_en] using hc
    simp [bucle_temporal, h0]
  | succ s ih =>
    intro fuel n c hf hprev hc
    obtain ⟨f, rfl⟩ : ∃ f, fuel = f + 1 := ⟨fuel - 1, by omega⟩
    have h0 : (verificar_convergencia c (paso_exterior mat c) (dt mat) eps).1 = false := by
      simpa [converge_en] using hprev 0 (Nat.succ_pos s)
    simp only [bucle_temporal, Bool.false_and, Bool.false_eq_true, if_false, h0]
    rw [ih f (n + 1) (paso_exterior mat c) (by omega)
      (fun s' hs' => by
        simpa [converge_en, Function.iterate_succ_apply] using hprev (s' + 1) (by omega))
      (by simpa [converge_en, Function.iterate_succ_apply] using hc)]
    have hidx : n + 1 + s + 1 = n + (s + 1) + 1 := by omega
    rw [hidx]
    simp only [Function.iterate_succ_apply]

/-! ## Claim theorems -/

/-- C5: one fluid step gives every interior node `1 ≤ i ≤ Nx-2` the value
`Tᵢ − CFL·(Tᵢ−Tᵢ₋₁) − γ·Δt·(Tᵢ−T_{s,i})`, fixes node 0 at the inlet supply
temperature, copies the new neighbour into the last node (zero gradient), and
in the 296.15 K / 353.15 K start-up scenario node 1 satisfies the formula
exactly with the configured `CFL` and `γ`. -/
theorem C5_fluido_upwind_step (T_old T_s : ℕ → ℚ) (dtv : ℚ) (i : ℕ)
    (h1 : 1 ≤ i) (h2 : i ≤ Nx_fluido - 2) :
    actualizar_fluido T_old T_s dtv i
      = T_old i - (u * dtv / dx_fluido) * (T_old i - T_old (i - 1))
          - gamma * dtv * (T_old i - T_s i)
    ∧ actualizar_fluido T_old T_s dtv 0 = T_f_in
    ∧ actualizar_fluido T_old T_s dtv (Nx_fluido - 1)
        = actualizar_fluido T_old T_s dtv (Nx_fluido - 2)
    ∧ (∀ mat : Material,
        actualizar_fluido inicializar_fluido (fun _ => T_inicial) (dt mat) 1
          = T_inicial - CFL mat * (T_inicial - T_f_in)
              - gamma * dt mat * (T_inicial - T_inicial)) := by
  refine ⟨?_, ?_, ?_, ?_⟩
  · have h2' : i ≤ 58 := by simpa [Nx_fluido] using h2
    have hi0 : i ≠ 0 := by omega
    have hiN : i ≠ Nx_fluido - 1 := by simp only [Nx_fluido]; omega
    simp only [actualizar_fluido, if_neg hi0, if_neg hiN]
  · simp [actualizar_fluido]
  · norm_num [actualizar_fluido, Nx_fluido]
  · intro mat
    norm_num [actualizar_fluido, inicializar_fluido, CFL, Nx_fluido]

/-- Witness for C5 at the concrete interior node `i = 1`. -/
theorem C5_fluido_upwind_step_witness :
    (1 : ℕ) ≤ 1 ∧ (1 : ℕ) ≤ Nx_fluido - 2 ∧
      (actualizar_fluido inicializar_fluido (fun _ => T_inicial) 1 1
        = inicializar_fluido 1
            - (u * 1 / dx_fluido) * (inicializar_fluido 1 - inicializar_fluido 0)
            - gamma * 1 * (inicializar_fluido 1 - T_inicial)) :=
  ⟨le_refl 1, by decide,
    (C5_fluido_upwind_step inicializar_fluido (fun _ => T_inicial) 1 1
      (le_refl 1) (by decide)).1⟩

/-- C6: a uniform plate field at the ambient temperature, stepped against a
fluid field at that same temperature, is exactly a fixed point of
`actualizar_placa`, for any number of steps and any step size. -/
theorem C6_placa_equilibrio_punto_fijo (mat : Material) (dtv : ℚ) (n : ℕ) :
    (fun T => actualizar_placa T (fun _ => T_inf) mat dtv)^[n] (fun _ _ => T_inf)
      = fun _ _ => T_inf := by
  apply Function.iterate_fixed
  funext i j
  simp only [actualizar_placa]
  split_ifs <;> ring

/-- Counterexample for C2: at the stable step `dt = 10⁻⁵ s` for aluminium
(the stability gate of `actualizar_aleta` holds, first conjunct), the updated
center value at the interior angular index `m = 5` equals neither the angular
average of the updated `r = Δr` ring nor that of the input ring: the code
updates the center per angle from that angle's own first-ring neighbour, so
here center and ring averages differ by exactly 1 K. -/
theorem C2_counterexample :
    (alpha_s .Al * 1e-5 / dr_aleta ^ 2
        + (alpha_s .Al * 1e-5) / (r_aleta 1 * dtheta_aleta) ^ 2 < 0.5)
    ∧ actualizar_aleta T_c2 .Al 1e-5 5 0
        ≠ (Finset.range Ntheta_aleta).sum (fun m => actualizar_aleta T_c2 .Al 1e-5 m 1)
            / (Ntheta_aleta : ℚ)
    ∧ actualizar_aleta T_c2 .Al 1e-5 5 0
        ≠ (Finset.range Ntheta_aleta).sum (fun m => T_c2 m 1) / (Ntheta_aleta : ℚ) := by
  refine ⟨?_, ?_, ?_⟩ <;>
    norm_num [Finset.sum_range_succ, actualizar_aleta, T_c2, r_aleta, Nr_aleta,
      Ntheta_aleta, dr_aleta, dtheta_aleta, np_pi, alpha_s, T_inicial, h_aire,
      k_s, r, T_inf]

/-- C2 (amended): after one `actualizar_aleta` step the center value at each
interior angular index `m` is the per-angle L'Hôpital update
`T[m,0] + 2·Fo_r·(T[m,1] − T[m,0])` — driven by that angle's own first-ring
neighbour, not by the angular average of the ring — and the two flat angular
boundary rows copy the center values of their neighbouring rows. -/
theorem C2_centro_aleta_por_angulo (T_old : ℕ → ℕ → ℚ) (mat : Material)
    (dtv : ℚ) (m : ℕ) (h1 : 1 ≤ m) (h2 : m ≤ Ntheta_aleta - 2) :
    actualizar_aleta T_old mat dtv m 0
      = T_old m 0 + 2 * (alpha_s mat * dtv / dr_aleta ^ 2) * (T_old m 1 - T_old m 0)
    ∧ actualizar_aleta T_old mat dtv 0 0 = actualizar_aleta T_old mat dtv 1 0
    ∧ actualizar_aleta T_old mat dtv (Ntheta_aleta - 1) 0
        = actualizar_aleta T_old mat dtv (Ntheta_aleta - 2) 0 := by
  have h2' : m ≤ 18 := by simpa [Ntheta_aleta] using h2
  have hm0 : m ≠ 0 := by omega
  have hmN : m ≠ Ntheta_aleta - 1 := by simp only [Ntheta_aleta]; omega
  refine ⟨?_, ?_, ?_⟩
  · simp [actualizar_aleta, if_neg hm0, if_neg hmN]
  · norm_num [actualizar_aleta, Ntheta_aleta, Nr_aleta]
  · norm_num [actualizar_aleta, Ntheta_aleta, Nr_aleta]

/-- Witness for the amended C2 at the concrete interior angular index `m = 5`. -/
theorem C2_centro_aleta_por_angulo_witness :
    (1 : ℕ) ≤ 5 ∧ (5 : ℕ) ≤ Ntheta_aleta - 2 ∧
      actualizar_aleta inicializar_aleta .Al 1e-5 5 0
        = inicializar_aleta 5 0
            + 2 * (alpha_s .Al * 1e-5 / dr_aleta ^ 2)
                * (inicializar_aleta 5 1 - inicializar_aleta 5 0) :=
  ⟨by decide, by decide,
    (C2_centro_aleta_por_angulo inicializar_aleta .Al 1e-5 5
      (by decide) (by decide)).1⟩

/-- C10: the plate→fin coupling is pure on everything outside the two flat
angular edges — every node of the returned fin field with
`1 ≤ m ≤ Ntheta-2` equals the corresponding node of the input fin field
(the plate field and input fin fields themselves are never written, the
source copies before writing). -/
theorem C10_acoplamiento_frame (T_placa : ℕ → ℕ → ℚ)
    (T_aletas : ℕ → ℕ → ℕ → ℚ) (k m j : ℕ)
    (h1 : 1 ≤ m) (h2 : m ≤ Ntheta_aleta - 2) :
    aplicar_acoplamiento_placa_aletas T_placa T_aletas k m j = T_aletas k m j := by
  have h2' : m ≤ 18 := by simpa [Ntheta_aleta] using h2
  have hm0 : m ≠ 0 := by omega
  have hmN : m ≠ Ntheta_aleta - 1 := by simp only [Ntheta_aleta]; omega
  simp [aplicar_acoplamiento_placa_aletas, if_neg hm0, if_neg hmN]

/-- Witness for C10 at fin 0, interior node `(m, j) = (5, 3)`. -/
theorem C10_acoplamiento_frame_witness :
    (1 : ℕ) ≤ 5 ∧ (5 : ℕ) ≤ Ntheta_aleta - 2 ∧
      aplicar_acoplamiento_placa_aletas inicializar_placa
          (fun _ => inicializar_aleta) 0 5 3
        = (fun _ : ℕ => inicializar_aleta) 0 5 3 :=
  ⟨by decide, by decide,
    C10_acoplamiento_frame inicializar_placa (fun _ => inicializar_aleta) 0 5 3
      (by decide) (by decide)⟩

/-- Counterexample for C4: in the integrated fin sub-step the Coupler's
Dirichlet values are applied before — not after — the fin update, and the
update's own zero-gradient overwrite runs last; with a uniform 320 K plate
and uniform 296.15 K fins, the fin sub-step ends with the θ=0 boundary node
`(m, j) = (0, 0)` at a value different from the plate-interpolated Dirichlet
value (320 K) that the claim says it should hold. -/
theorem C4_counterexample :
    subpaso_aletas .Al (fun _ _ => 320) (fun _ _ _ => T_inicial) 0 0 0
      ≠ interpolar_temperatura_placa_2d (fun _ _ => 320)
          (x_centro_aleta 0 + r_aleta 0) e_base := by
  have hconst : interpolar_temperatura_placa_2d (fun _ _ => (320 : ℚ))
      (x_centro_aleta 0 + r_aleta 0) e_base = 320 := by
    simp only [interpolar_temperatura_placa_2d]
    ring
  rw [hconst]
  norm_num [subpaso_aletas, actualizar_aleta, aplicar_acoplamiento_placa_aletas,
    Ntheta_aleta, Nr_aleta, T_inicial]

/-- C4 (amended): in every fin sub-step of the integrated loop the Coupler's
Dirichlet values are written into the θ=0 and θ=π rows strictly *before* the
fin update (the sub-step is literally the update composed after the
coupling), and the sub-step ends with those two rows holding zero-gradient
copies of the neighbouring angular rows, the Dirichlet data influencing the
sub-step only through the pre-update field. -/
theorem C4_subpaso_orden (mat : Material) (T_placa : ℕ → ℕ → ℚ)
    (T_aletas : ℕ → ℕ → ℕ → ℚ) (k j : ℕ) :
    subpaso_aletas mat T_placa T_aletas k
        = actualizar_aleta (aplicar_acoplamiento_placa_aletas T_placa T_aletas k)
            mat (dt_aletas_ajustado mat)
    ∧ aplicar_acoplamiento_placa_aletas T_placa T_aletas k 0 j
        = interpolar_temperatura_placa_2d T_placa (x_centro_aleta k + r_aleta j) e_base
    ∧ aplicar_acoplamiento_placa_aletas T_placa T_aletas k (Ntheta_aleta - 1) j
        = interpolar_temperatura_placa_2d T_placa (x_centro_aleta k - r_aleta j) e_base
    ∧ subpaso_aletas mat T_placa T_aletas k 0 j
        = subpaso_aletas mat T_placa T_aletas k 1 j
    ∧ subpaso_aletas mat T_placa T_aletas k (Ntheta_aleta - 1) j
        = subpaso_aletas mat T_placa T_aletas k (Ntheta_aleta - 2) j := by
  refine ⟨rfl, ?_, ?_, ?_, ?_⟩
  · simp [aplicar_acoplamiento_placa_aletas]
  · norm_num [aplicar_acoplamiento_placa_aletas, Ntheta_aleta]
  · norm_num [subpaso_aletas, actualizar_aleta, Ntheta_aleta, Nr_aleta]
  · norm_num [subpaso_aletas, actualizar_aleta, Ntheta_aleta, Nr_aleta]

/-- C7: the number of fin sub-steps per plate step is the ceiling of the
ratio of the steps, the adjusted fin step re-divides the plate step evenly
(`N · dt_fin = dt_placa` exactly), and the adjusted fin step never exceeds
the stable fin step. -/
theorem C7_subpasos_aletas_ajuste (mat : Material) :
    n_subpasos_aletas mat = ⌈dt mat / calcular_dt_aletas mat⌉₊
    ∧ (n_subpasos_aletas mat : ℚ) * dt_aletas_ajustado mat = dt mat
    ∧ dt_aletas_ajustado mat ≤ calcular_dt_aletas mat := by
  have hdt : 0 < dt mat := by
    cases mat <;>
      norm_num [dt, dx_placa, dy_placa, dx_fluido, alpha_s, L_x, e_base, u, min_def,
        Nx_placa, Ny_placa, Nx_fluido]
  have hda : 0 < calcular_dt_aletas mat := by
    cases mat <;>
      norm_num [calcular_dt_aletas, dr_aleta, dtheta_aleta, np_pi, alpha_s, r,
        Nr_aleta, Ntheta_aleta]
  have hn : 0 < n_subpasos_aletas mat := by
    rw [n_subpasos_aletas, Nat.ceil_pos]
    exact div_pos hdt hda
  have hnq : (0 : ℚ) < (n_subpasos_aletas mat : ℚ) := by exact_mod_cast hn
  refine ⟨rfl, ?_, ?_⟩
  · rw [dt_aletas_ajustado, mul_div_cancel₀ _ (ne_of_gt hnq)]
  · rw [dt_aletas_ajustado, div_le_iff₀ hnq]
    have hle : dt mat / calcular_dt_aletas mat ≤ (n_subpasos_aletas mat : ℚ) :=
      Nat.le_ceil _
    calc dt mat = dt mat / calcular_dt_aletas mat * calcular_dt_aletas mat := by
          field_simp
      _ ≤ (n_subpasos_aletas mat : ℚ) * calcular_dt_aletas mat :=
          mul_le_mul_of_nonneg_right hle hda.le
      _ = calcular_dt_aletas mat * (n_subpasos_aletas mat : ℚ) := mul_comm _ _

/-- C3: for both material presets, at the configured steps and before any
step is taken, the plate Fourier sum is strictly below 0.5, the fluid
Courant number strictly below 1, and the fin solver's worst-case cylindrical
Fourier sum — radial term plus angular term at the smallest nonzero radius
`r_min = Δr`, evaluated at the stable fin step — strictly below 0.5 (it is
exactly 0.4). -/
theorem C3_estabilidad_configuracion (mat : Material) :
    Fo_x mat + Fo_y mat < 0.5
    ∧ CFL mat < 1
    ∧ alpha_s mat * calcular_dt_aletas mat / dr_aleta ^ 2
        + alpha_s mat * calcular_dt_aletas mat / (dr_aleta * dtheta_aleta) ^ 2
          < 0.5 := by
  cases mat <;> refine ⟨?_, ?_, ?_⟩ <;>
    norm_num [Fo_x, Fo_y, CFL, dt, calcular_dt_aletas, dx_placa, dy_placa,
      dx_fluido, dr_aleta, dtheta_aleta, np_pi, alpha_s, L_x, e_base, r, u, min_def,
      Nx_placa, Ny_placa, Nx_fluido, Nr_aleta, Ntheta_aleta]


/-- C1 (code bug at solucionador.py line 537): with the energy balance
enabled, `resolver_sistema` computes the first balance record (the branch
fires already at `n = 0` because `0 % guardar_cada == 0`) and then raises
`NameError` reading the undefined name `t`, aborting the run — for every
material, tolerance, cadence and any horizon of at least one step.  With the
balance disabled the loop has no error exit at all, and the temperature
trajectory is the `paso_exterior` iteration either way: the balance record
feeds back into nothing. -/
theorem C1_balance_aborta_con_name_error (mat : Material) (gc : ℕ)
    (eps t_max : ℚ) (h : 1 ≤ n_pasos_max mat t_max) :
    resolver_sistema mat t_max eps gc true
        = .error "NameError: name t is not defined"
    ∧ ∀ (fuel n : ℕ) (c : Campos),
        (bucle_temporal mat false gc eps fuel n c).isOk = true := by
  constructor
  · obtain ⟨f, hf⟩ : ∃ f, n_pasos_max mat t_max = f + 1 :=
      ⟨n_pasos_max mat t_max - 1, by omega⟩
    rw [resolver_sistema, hf]
    simp [bucle_temporal]
  · exact fun fuel n c => bucle_temporal_sin_error mat gc eps fuel n c

/-- Witness for C1 at the source defaults: aluminium, `t_max = 30 s`,
`ε = 10⁻³`, `guardar_cada = 100`. -/
theorem C1_balance_aborta_con_name_error_witness :
    1 ≤ n_pasos_max .Al 30 ∧
      resolver_sistema .Al 30 (1 / 1000) 100 true
        = .error "NameError: name t is not defined" := by
  have hdt : 0 < dt .Al ∧ dt .Al ≤ 30 := by
    constructor <;>
      norm_num [dt, dx_placa, dy_placa, dx_fluido, alpha_s, L_x, e_base, u,
        min_def, Nx_placa, Ny_placa, Nx_fluido]
  have h1 : (1 : ℚ) ≤ 30 / dt .Al := by
    rw [le_div_iff₀ hdt.1]
    linarith [hdt.2]
  have h2 : (1 : ℤ) ≤ ⌊(30 : ℚ) / dt .Al⌋ := Int.le_floor.mpr (by exact_mod_cast h1)
  have h : 1 ≤ n_pasos_max .Al 30 := by
    simp only [n_pasos_max]
    omega
  exact ⟨h, (C1_balance_aborta_con_name_error .Al 100 (1 / 1000) 30 h).1⟩

/-- C9: `verificar_convergencia` returns the global maximum of `|ΔT|/Δt`
over every node of the fluid, plate and all three fin fields, its flag is
`true` exactly when that maximum is strictly below ε, and the outer loop
(balance disabled, as the trajectory-relevant part) stops at the first outer
iteration whose flag fires — returning `alcanzada = true` — and otherwise
runs out its `n_pasos_max = ⌊t_max / dt⌋` iterations and returns
`alcanzada = false` (timed out). -/
theorem C9_convergencia_y_paro (mat : Material) (T_old T_new : Campos)
    (dtv eps : ℚ) :
    ((verificar_convergencia T_old T_new dtv eps).1 = true
        ↔ maxLista (tasas T_old T_new dtv) < eps)
    ∧ ((verificar_convergencia T_old T_new dtv eps).1 = true
        ↔ ∀ x ∈ tasas T_old T_new dtv, x < eps)
    ∧ (∀ i, i < Nx_fluido →
        |T_new.fluido i - T_old.fluido i| / dtv
          ≤ (verificar_convergencia T_old T_new dtv eps).2)
    ∧ (∀ i j, i < Nx_placa → j < Ny_placa →
        |T_new.placa i j - T_old.placa i j| / dtv
          ≤ (verificar_convergencia T_old T_new dtv eps).2)
    ∧ (∀ k m j, k < 3 → m < Ntheta_aleta → j < Nr_aleta →
        |T_new.aletas k m j - T_old.aletas k m j| / dtv
          ≤ (verificar_convergencia T_old T_new dtv eps).2)
    ∧ (∀ (gc : ℕ) (t_max : ℚ) (cb : Bool),
        resolver_sistema mat t_max eps gc cb
          = bucle_temporal mat cb gc eps (n_pasos_max mat t_max) 0 campos_iniciales)
    ∧ (∀ (gc fuel n : ℕ) (c : Campos),
        (∀ s, s < fuel → converge_en mat eps c s = false) →
        bucle_temporal mat false gc eps fuel n c
          = .ok ⟨(paso_exterior mat)^[fuel] c, false, n + fuel⟩)
    ∧ (∀ (gc s0 fuel n : ℕ) (c : Campos), s0 < fuel →
        (∀ s, s < s0 → converge_en mat eps c s = false) →
        converge_en mat eps c s0 = true →
        bucle_temporal mat false gc eps fuel n c
          = .ok ⟨(paso_exterior mat)^[s0 + 1] c, true, n + s0 + 1⟩) := by
  have hiff : (verificar_convergencia T_old T_new dtv eps).1 = true
      ↔ maxLista (tasas T_old T_new dtv) < eps := by
    simp [verificar_convergencia]
  have hsnd : (verificar_convergencia T_old T_new dtv eps).2
      = maxLista (tasas T_old T_new dtv) := by
    simp [verificar_convergencia]
  refine ⟨?_, ?_, ?_, ?_, ?_, ?_, ?_, ?_⟩
  · exact hiff
  · rw [hiff]
    constructor
    · intro hlt x hx
      exact lt_of_le_of_lt (le_maxLista _ x hx) hlt
    · intro hall
      exact hall _ (maxLista_mem _ (tasas_ne_nil T_old T_new dtv))
  · intro i hi
    rw [hsnd]
    exact le_maxLista _ _ (tasa_fluido_mem T_old T_new dtv i hi)
  · intro i j hi hj
    rw [hsnd]
    exact le_maxLista _ _ (tasa_placa_mem T_old T_new dtv i j hi hj)
  · intro k m j hk hm hj
    rw [hsnd]
    exact le_maxLista _ _ (tasa_aleta_mem T_old T_new dtv k m j hk hm hj)
  · intro gc t_max cb
    rfl
  · exact fun gc fuel n c hconv => bucle_temporal_timeout mat gc eps fuel n c hconv
  · exact fun gc s0 fuel n c hf hprev hc =>
      bucle_temporal_converge mat gc eps s0 fuel n c hf hprev hc

/-- Witness for C9: the fluid-node bound at node 0 of the initial fields,
and the zero-fuel loop run, with every hypothesis discharged concretely. -/
theorem C9_convergencia_y_paro_witness :
    (0 : ℕ) < Nx_fluido
    ∧ |campos_iniciales.fluido 0 - campos_iniciales.fluido 0| / 1
        ≤ (verificar_convergencia campos_iniciales campos_iniciales 1 1).2
    ∧ bucle_temporal .Al false 100 1 0 7 campos_iniciales
        = .ok ⟨(paso_exterior .Al)^[0] campos_iniciales, false, 7 + 0⟩ :=
  ⟨by decide,
   (C9_convergencia_y_paro .Al campos_iniciales campos_iniciales 1 1).2.2.1 0
     (by decide),
   (C9_convergencia_y_paro .Al campos_iniciales campos_iniciales 1 1).2.2.2.2.2.2.1
     100 0 7 campos_iniciales (fun s hs => absurd hs (by omega))⟩

/-- C8: each checked update either aborts with an error or returns a field
whose every meaningful node lies in the physically plausible range — for the
fluid and the plate strictly inside (200 K, 400 K), for the fin inside
[200 K, 500 K] — never silently clamping; and on representative in-range
inputs each checked update does return a field (the gates are satisfiable). -/
theorem C8_rangos_fisicos_actualizaciones :
    (∀ (T_old T_s : ℕ → ℚ) (dtv : ℚ) (i : ℕ), i < Nx_fluido →
      ∀ T_new, actualizar_fluido_chk T_old T_s dtv = .ok T_new →
        200 < T_new i ∧ T_new i < 400)
    ∧ (∀ (T_old : ℕ → ℕ → ℚ) (T_fl : ℕ → ℚ) (mat : Material) (dtv : ℚ) (i j : ℕ),
        i < Nx_placa → j < Ny_placa →
        ∀ T_new, actualizar_placa_chk T_old T_fl mat dtv = .ok T_new →
          200 < T_new i j ∧ T_new i j < 400)
    ∧ (∀ (T_old : ℕ → ℕ → ℚ) (mat : Material) (dtv : ℚ) (m j : ℕ),
        m < Ntheta_aleta → j < Nr_aleta →
        ∀ T_new, actualizar_aleta_chk T_old mat dtv = .ok T_new →
          200 ≤ T_new m j ∧ T_new m j ≤ 500)
    ∧ actualizar_fluido_chk (fun _ => T_inicial) (fun _ => T_inicial) (dt .Al)
        = .ok (actualizar_fluido (fun _ => T_inicial) (fun _ => T_inicial) (dt .Al))
    ∧ actualizar_placa_chk (fun _ _ => T_inf) (fun _ => T_inf) .Al (dt .Al)
        = .ok (actualizar_placa (fun _ _ => T_inf) (fun _ => T_inf) .Al (dt .Al))
    ∧ actualizar_aleta_chk (fun _ _ => T_inf) .Al (calcular_dt_aletas .Al)
        = .ok (actualizar_aleta (fun _ _ => T_inf) .Al (calcular_dt_aletas .Al)) := by
  refine ⟨?_, ?_, ?_, ?_, ?_, ?_⟩
  · intro T_old T_s dtv i hi T_new hok
    simp only [actualizar_fluido_chk] at hok
    split at hok
    · exact Except.noConfusion hok
    · split at hok
      · rename_i hguard
        obtain ⟨hmin1, hmin2, hmax1, hmax2⟩ := hguard
        injection hok with hok
        subst hok
        have hmem : actualizar_fluido T_old T_s dtv i
            ∈ (List.range Nx_fluido).map (actualizar_fluido T_old T_s dtv) :=
          List.mem_map.mpr ⟨i, List.mem_range.mpr hi, rfl⟩
        exact ⟨lt_of_lt_of_le hmin1 (minLista_le _ _ hmem),
               lt_of_le_of_lt (le_maxLista _ _ hmem) hmax2⟩
      · exact Except.noConfusion hok
  · intro T_old T_fl mat dtv i j hi hj T_new hok
    simp only [actualizar_placa_chk] at hok
    split at hok
    · exact Except.noConfusion hok
    · split at hok
      · rename_i hguard
        obtain ⟨hmin1, hmin2, hmax1, hmax2⟩ := hguard
        injection hok with hok
        subst hok
        have hmem : actualizar_placa T_old T_fl mat dtv i j
            ∈ (List.range Nx_placa).flatMap (fun i =>
                (List.range Ny_placa).map fun j => actualizar_placa T_old T_fl mat dtv i j) :=
          List.mem_flatMap.mpr ⟨i, List.mem_range.mpr hi,
            List.mem_map.mpr ⟨j, List.mem_range.mpr hj, rfl⟩⟩
        exact ⟨lt_of_lt_of_le hmin1 (minLista_le _ _ hmem),
               lt_of_le_of_lt (le_maxLista _ _ hmem) hmax2⟩
      · exact Except.noConfusion hok
  · intro T_old mat dtv m j hm hj T_new hok
    simp only [actualizar_aleta_chk] at hok
    split at hok
    · exact Except.noConfusion hok
    · split at hok
      · exact Except.noConfusion hok
      · split at hok
        · exact Except.noConfusion hok
        · split at hok
          · exact Except.noConfusion hok
          · rename_i hout
            split at hok
            · exact Except.noConfusion hok
            · injection hok with hok
              subst hok
              exact not_not.mp hout m (List.mem_range.mpr hm) j (List.mem_range.mpr hj)
  · have hCFL : ¬¬ (u * dt Material.Al / dx_fluido < 1) := by
      norm_num [dt, dx_placa, dy_placa, dx_fluido, alpha_s, L_x, e_base, u,
        min_def, Nx_placa, Ny_placa, Nx_fluido]
    have hvals : ∀ x ∈ (List.range Nx_fluido).map
        (actualizar_fluido (fun _ => T_inicial) (fun _ => T_inicial) (dt .Al)),
        200 < x ∧ x < 400 := by
      intro x hx
      obtain ⟨i, _, rfl⟩ := List.mem_map.mp hx
      rw [actualizar_fluido_uniforme]
      split_ifs <;> norm_num [T_f_in, T_inicial]
    have hne : (List.range Nx_fluido).map
        (actualizar_fluido (fun _ => T_inicial) (fun _ => T_inicial) (dt .Al)) ≠ [] := by
      intro h
      have h1 := congrArg List.length h
      simp [Nx_fluido] at h1
    simp only [actualizar_fluido_chk]
    rw [if_neg hCFL, if_pos]
    refine ⟨lt_minLista _ 200 hne fun x hx => (hvals x hx).1,
            (hvals _ (minLista_mem _ hne)).2,
            (hvals _ (maxLista_mem _ hne)).1,
            maxLista_lt _ 400 hne fun x hx => (hvals x hx).2⟩
  · have hFo : ¬¬ (alpha_s Material.Al * dt Material.Al / dx_placa ^ 2
        + alpha_s Material.Al * dt Material.Al / dy_placa ^ 2 < 0.5) := by
      norm_num [dt, dx_placa, dy_placa, dx_fluido, alpha_s, L_x, e_base, u,
        min_def, Nx_placa, Ny_placa, Nx_fluido]
    have hvals : ∀ x ∈ (List.range Nx_placa).flatMap (fun i =>
        (List.range Ny_placa).map fun j =>
          actualizar_placa (fun _ _ => T_inf) (fun _ => T_inf) .Al (dt .Al) i j),
        200 < x ∧ x < 400 := by
      intro x hx
      obtain ⟨i, _, hx2⟩ := List.mem_flatMap.mp hx
      obtain ⟨j, _, rfl⟩ := List.mem_map.mp hx2
      rw [actualizar_placa_uniforme]
      norm_num [T_inf]
    have hne : (List.range Nx_placa).flatMap (fun i =>
        (List.range Ny_placa).map fun j =>
          actualizar_placa (fun _ _ => T_inf) (fun _ => T_inf) .Al (dt .Al) i j) ≠ [] :=
      List.ne_nil_of_mem (List.mem_flatMap.mpr ⟨0, by simp [Nx_placa],
        List.mem_map.mpr ⟨0, by simp [Ny_placa], rfl⟩⟩)
    simp only [actualizar_placa_chk]
    rw [if_neg hFo, if_pos]
    refine ⟨lt_minLista _ 200 hne fun x hx => (hvals x hx).1,
            (hvals _ (minLista_mem _ hne)).2,
            (hvals _ (maxLista_mem _ hne)).1,
            maxLista_lt _ 400 hne fun x hx => (hvals x hx).2⟩
  · have hin : ¬¬ (∀ m ∈ List.range Ntheta_aleta, ∀ j ∈ List.range Nr_aleta,
        200 ≤ (fun _ _ => T_inf) m j ∧ (fun _ _ => T_inf) m j ≤ 500) := by
      refine not_not_intro fun m _ j _ => ?_
      norm_num [T_inf]
    have hdtv : ¬¬ (0 < calcular_dt_aletas Material.Al) := by
      norm_num [calcular_dt_aletas, dr_aleta, dtheta_aleta, np_pi, alpha_s, r,
        Nr_aleta, Ntheta_aleta]
    have hstab : ¬¬ (alpha_s Material.Al * calcular_dt_aletas Material.Al / dr_aleta ^ 2
        + alpha_s Material.Al * calcular_dt_aletas Material.Al
            / (dr_aleta * dtheta_aleta) ^ 2 < 0.5) := by
      norm_num [calcular_dt_aletas, dr_aleta, dtheta_aleta, np_pi, alpha_s, r,
        Nr_aleta, Ntheta_aleta]
    have hout : ¬¬ (∀ m ∈ List.range Ntheta_aleta, ∀ j ∈ List.range Nr_aleta,
        200 ≤ actualizar_aleta (fun _ _ => T_inf) .Al (calcular_dt_aletas .Al) m j
          ∧ actualizar_aleta (fun _ _ => T_inf) .Al (calcular_dt_aletas .Al) m j ≤ 500) := by
      refine not_not_intro fun m _ j _ => ?_
      rw [actualizar_aleta_uniforme]
      norm_num [T_inf]
    have hdelta : ¬¬ (maxLista ((List.range Ntheta_aleta).flatMap fun m =>
        (List.range Nr_aleta).map fun j =>
          |actualizar_aleta (fun _ _ => T_inf) .Al (calcular_dt_aletas .Al) m j
            - (fun _ _ => T_inf) m j|) < 50) := by
      refine not_not_intro (maxLista_lt _ 50 ?_ ?_)
      · exact List.ne_nil_of_mem (List.mem_flatMap.mpr ⟨0, by simp [Ntheta_aleta],
          List.mem_map.mpr ⟨0, by simp [Nr_aleta], rfl⟩⟩)
      · intro x hx
        obtain ⟨m, _, hx2⟩ := List.mem_flatMap.mp hx
        obtain ⟨j, _, rfl⟩ := List.mem_map.mp hx2
        rw [actualizar_aleta_uniforme]
        norm_num
    simp only [actualizar_aleta_chk]
    rw [if_neg hin, if_neg hdtv, if_neg hstab, if_neg hout, if_neg hdelta]

/-- Witness for C8: bounds at fluid node 5 of the in-range instance, with
the `Except.ok` hypothesis discharged by the theorem's own instance part. -/
theorem C8_rangos_fisicos_actualizaciones_witness :
    (5 : ℕ) < Nx_fluido
    ∧ 200 < actualizar_fluido (fun _ => T_inicial) (fun _ => T_inicial) (dt .Al) 5
    ∧ actualizar_fluido (fun _ => T_inicial) (fun _ => T_inicial) (dt .Al) 5 < 400 :=
  ⟨by decide,
   (C8_rangos_fisicos_actualizaciones.1 (fun _ => T_inicial) (fun _ => T_inicial)
      (dt .Al) 5 (by decide) _ C8_rangos_fisicos_actualizaciones.2.2.2.1).1,
   (C8_rangos_fisicos_actualizaciones.1 (fun _ => T_inicial) (fun _ => T_inicial)
      (dt .Al) 5 (by decide) _ C8_rangos_fisicos_actualizaciones.2.2.2.1).2⟩


end GpuCooling
